import Mathlib

/-!
Shallow embedding of the Solplanet HTTP client
(homeassistant/components/solplanet/client.py) together with proofs about
its decoding layer, endpoint construction and battery-mode-change logic.

Python values decoded from JSON are modelled by the `Json` inductive; a
dataclass field holds whatever JSON value was bound to it, since Python
dataclasses perform no runtime type checking, so record fields are `Json`.
Keyword-argument construction `C(**d)` is modelled by `kwargsExact`:
it succeeds exactly when the keys of `d` are precisely the field names
of `C` (a missing required field or an unexpected key raises TypeError).
The network is an oracle `Network : String -> Except PyError Json`
(indexed by full request URL); each API method additionally reports the
list of endpoints it requested over the network and the list of
`set_battery_config` invocations, mirroring the observable effects of
the Python code.
-/

/-- Json value as produced by json decoding of an HTTP response body. -/
inductive Json where
  | null : Json
  | bool : Bool → Json
  | num : Int → Json
  | str : String → Json
  | arr : List Json → Json
  | obj : List (String × Json) → Json

/-- Errors a Python call in this module can raise: TypeError (bad kwargs or
non-mapping unpacking or non-iterable), KeyError (missing dict key), a network
error, a JSON parse error, and the domain error UnknownBatteryMode. -/
inductive PyError where
  | typeError : PyError
  | keyError : PyError
  | netError : PyError
  | jsonError : PyError
  | unknownBatteryMode : PyError
deriving DecidableEq

/-- Value bound to key `k` in a decoded JSON object; callers only use it
when the key is known to be present. -/
def jlookup (kvs : List (String × Json)) (k : String) : Json :=
  (kvs.lookup k).getD Json.null

/-- Python `C(**d)` succeeds iff the keys of `d` are exactly the field names
of the dataclass `C`: every required field present, no unexpected keyword,
and (as for any Python dict) no duplicate key. -/
def kwargsExact (names : List String) (kvs : List (String × Json)) : Bool :=
  let keys := kvs.map Prod.fst
  decide keys.Nodup && names.all (fun n => keys.contains n)
    && keys.all (fun k => names.contains k)

/-- Python iteration over a decoded JSON value: a list yields its elements,
a string its one-character substrings, a dict its keys; other values raise
TypeError. -/
def pyIter : Json → Except PyError (List Json)
  | .arr xs => .ok xs
  | .str s => .ok (s.toList.map (fun c => .str (String.singleton c)))
  | .obj kvs => .ok (kvs.map (fun p => .str p.1))
  | _ => .error .typeError

/-- Left-to-right decoding of a list of JSON items, stopping at the first
failure, as a Python list comprehension over a decoding constructor does. -/
def mapDecode {α : Type} (f : Json → Except PyError α) :
    List Json → Except PyError (List α)
  | [] => .ok []
  | x :: xs =>
    match f x with
    | .error e => .error e
    | .ok y =>
      match mapDecode f xs with
      | .error e => .error e
      | .ok ys => .ok (y :: ys)

/-- Get meter data response model (dataclass GetMeterDataResponse). -/
structure GetMeterDataResponse where
  flg : Json
  tim : Json
  pac : Json
  itd : Json
  otd : Json
  iet : Json
  oet : Json
  mod : Json
  enb : Json

/-- Field names of GetMeterDataResponse, in declaration order. -/
def meterFieldNames : List String :=
  ["flg", "tim", "pac", "itd", "otd", "iet", "oet", "mod", "enb"]

/-- Decoding step of get_meter_data: `GetMeterDataResponse(**response)`. -/
def decodeGetMeterData (j : Json) : Except PyError GetMeterDataResponse :=
  match j with
  | .obj kvs =>
    if kwargsExact meterFieldNames kvs then
      .ok { flg := jlookup kvs "flg", tim := jlookup kvs "tim",
            pac := jlookup kvs "pac", itd := jlookup kvs "itd",
            otd := jlookup kvs "otd", iet := jlookup kvs "iet",
            oet := jlookup kvs "oet", mod := jlookup kvs "mod",
            enb := jlookup kvs "enb" }
    else .error .typeError
  | _ => .error .typeError

/-- Get inverter data response model (dataclass GetInverterDataResponse). -/
structure GetInverterDataResponse where
  flg : Json
  tim : Json
  tmp : Json
  fac : Json
  pac : Json
  sac : Json
  qac : Json
  eto : Json
  etd : Json
  hto : Json
  pf : Json
  wan : Json
  err : Json
  vac : Json
  iac : Json
  vpv : Json
  ipv : Json
  str : Json

/-- Field names of GetInverterDataResponse, in declaration order. -/
def inverterDataFieldNames : List String :=
  ["flg", "tim", "tmp", "fac", "pac", "sac", "qac", "eto", "etd", "hto",
   "pf", "wan", "err", "vac", "iac", "vpv", "ipv", "str"]

/-- Decoding step of get_inverter_data: `GetInverterDataResponse(**response)`. -/
def decodeGetInverterData (j : Json) : Except PyError GetInverterDataResponse :=
  match j with
  | .obj kvs =>
    if kwargsExact inverterDataFieldNames kvs then
      .ok { flg := jlookup kvs "flg", tim := jlookup kvs "tim",
            tmp := jlookup kvs "tmp", fac := jlookup kvs "fac",
            pac := jlookup kvs "pac", sac := jlookup kvs "sac",
            qac := jlookup kvs "qac", eto := jlookup kvs "eto",
            etd := jlookup kvs "etd", hto := jlookup kvs "hto",
            pf := jlookup kvs "pf", wan := jlookup kvs "wan",
            err := jlookup kvs "err", vac := jlookup kvs "vac",
            iac := jlookup kvs "iac", vpv := jlookup kvs "vpv",
            ipv := jlookup kvs "ipv", str := jlookup kvs "str" }
    else .error .typeError
  | _ => .error .typeError

/-- Get inverter info item response (dataclass GetInverterInfoItemResponse). -/
structure GetInverterInfoItemResponse where
  isn : Json
  add : Json
  safety : Json
  rate : Json
  msw : Json
  ssw : Json
  tsw : Json
  pac : Json
  etd : Json
  eto : Json
  err : Json
  cmv : Json
  mty : Json
  model : Json

/-- Field names of GetInverterInfoItemResponse, in declaration order. -/
def inverterInfoItemFieldNames : List String :=
  ["isn", "add", "safety", "rate", "msw", "ssw", "tsw", "pac", "etd",
   "eto", "err", "cmv", "mty", "model"]

/-- Decoding of one inverter info list item:
`GetInverterInfoItemResponse(**item)`. -/
def decodeGetInverterInfoItem (j : Json) :
    Except PyError GetInverterInfoItemResponse :=
  match j with
  | .obj kvs =>
    if kwargsExact inverterInfoItemFieldNames kvs then
      .ok { isn := jlookup kvs "isn", add := jlookup kvs "add",
            safety := jlookup kvs "safety", rate := jlookup kvs "rate",
            msw := jlookup kvs "msw", ssw := jlookup kvs "ssw",
            tsw := jlookup kvs "tsw", pac := jlookup kvs "pac",
            etd := jlookup kvs "etd", eto := jlookup kvs "eto",
            err := jlookup kvs "err", cmv := jlookup kvs "cmv",
            mty := jlookup kvs "mty", model := jlookup kvs "model" }
    else .error .typeError
  | _ => .error .typeError

/-- Get inverter info response (dataclass GetInverterInfoResponse); its
`inv` field holds the element-wise decoded item records. -/
structure GetInverterInfoResponse where
  inv : List GetInverterInfoItemResponse
  num : Json

/-- Field names of GetInverterInfoResponse, in declaration order. -/
def inverterInfoFieldNames : List String := ["inv", "num"]

/-- Decoding step of get_inverter_info: first
`response["inv"] = [GetInverterInfoItemResponse(**item) for item in response["inv"]]`
(KeyError if `inv` is absent, TypeError if the response is not a mapping),
then `GetInverterInfoResponse(**response)`. -/
def decodeGetInverterInfo (j : Json) : Except PyError GetInverterInfoResponse :=
  match j with
  | .obj kvs =>
    match kvs.lookup "inv" with
    | none => .error .keyError
    | some invJson =>
      match pyIter invJson with
      | .error e => .error e
      | .ok items =>
        match mapDecode decodeGetInverterInfoItem items with
        | .error e => .error e
        | .ok inv =>
          if kwargsExact inverterInfoFieldNames kvs then
            .ok { inv := inv, num := jlookup kvs "num" }
          else .error .typeError
  | _ => .error .typeError

/-- Get battery info item response (dataclass GetBatteryInfoItemResponse). -/
structure GetBatteryInfoItemResponse where
  bid : Json
  devtype : Json
  manufactoty : Json
  partno : Json
  model1sn : Json
  model2sn : Json
  model3sn : Json
  model4sn : Json
  model5sn : Json
  model6sn : Json
  model7sn : Json
  model8sn : Json
  modeltotal : Json
  monomertotoal : Json
  monomerinmodel : Json
  ratedvoltage : Json
  capacity : Json
  hardwarever : Json
  softwarever : Json

/-- Field names of GetBatteryInfoItemResponse, in declaration order. -/
def batteryInfoItemFieldNames : List String :=
  ["bid", "devtype", "manufactoty", "partno", "model1sn", "model2sn",
   "model3sn", "model4sn", "model5sn", "model6sn", "model7sn", "model8sn",
   "modeltotal", "monomertotoal", "monomerinmodel", "ratedvoltage",
   "capacity", "hardwarever", "softwarever"]

/-- Decoding of the embedded battery hardware sub-record:
`GetBatteryInfoItemResponse(**response["battery"])`. -/
def decodeGetBatteryInfoItem (j : Json) :
    Except PyError GetBatteryInfoItemResponse :=
  match j with
  | .obj kvs =>
    if kwargsExact batteryInfoItemFieldNames kvs then
      .ok { bid := jlookup kvs "bid", devtype := jlookup kvs "devtype",
            manufactoty := jlookup kvs "manufactoty",
            partno := jlookup kvs "partno",
            model1sn := jlookup kvs "model1sn",
            model2sn := jlookup kvs "model2sn",
            model3sn := jlookup kvs "model3sn",
            model4sn := jlookup kvs "model4sn",
            model5sn := jlookup kvs "model5sn",
            model6sn := jlookup kvs "model6sn",
            model7sn := jlookup kvs "model7sn",
            model8sn := jlookup kvs "model8sn",
            modeltotal := jlookup kvs "modeltotal",
            monomertotoal := jlookup kvs "monomertotoal",
            monomerinmodel := jlookup kvs "monomerinmodel",
            ratedvoltage := jlookup kvs "ratedvoltage",
            capacity := jlookup kvs "capacity",
            hardwarever := jlookup kvs "hardwarever",
            softwarever := jlookup kvs "softwarever" }
    else .error .typeError
  | _ => .error .typeError

/-- Get battery info response (dataclass GetBatteryInfoResponse); its
`battery` field holds the decoded hardware sub-record. -/
structure GetBatteryInfoResponse where
  isn : Json
  stu_r : Json
  type : Json
  mod_r : Json
  muf : Json
  mod : Json
  num : Json
  fir_r : Json
  charging : Json
  charge_max : Json
  discharge_max : Json
  battery : GetBatteryInfoItemResponse

/-- Field names of GetBatteryInfoResponse, in declaration order. -/
def batteryInfoFieldNames : List String :=
  ["isn", "stu_r", "type", "mod_r", "muf", "mod", "num", "fir_r",
   "charging", "charge_max", "discharge_max", "battery"]

/-- Decoding step of get_battery_info: first
`response["battery"] = GetBatteryInfoItemResponse(**response["battery"])`
(KeyError if `battery` is absent, TypeError if the response is not a
mapping), then `GetBatteryInfoResponse(**response)`. -/
def decodeGetBatteryInfo (j : Json) : Except PyError GetBatteryInfoResponse :=
  match j with
  | .obj kvs =>
    match kvs.lookup "battery" with
    | none => .error .keyError
    | some batteryJson =>
      match decodeGetBatteryInfoItem batteryJson with
      | .error e => .error e
      | .ok battery =>
        if kwargsExact batteryInfoFieldNames kvs then
          .ok { isn := jlookup kvs "isn", stu_r := jlookup kvs "stu_r",
                type := jlookup kvs "type", mod_r := jlookup kvs "mod_r",
                muf := jlookup kvs "muf", mod := jlookup kvs "mod",
                num := jlookup kvs "num", fir_r := jlookup kvs "fir_r",
                charging := jlookup kvs "charging",
                charge_max := jlookup kvs "charge_max",
                discharge_max := jlookup kvs "discharge_max",
                battery := battery }
        else .error .typeError
  | _ => .error .typeError

/-- Get Wifi list item response (dataclass GetWifiListItemResponse). -/
structure GetWifiListItemResponse where
  sid : Json
  srh : Json
  channel : Json

/-- Field names of GetWifiListItemResponse, in declaration order. -/
def wifiListItemFieldNames : List String := ["sid", "srh", "channel"]

/-- Decoding of one WiFi network list item:
`GetWifiListItemResponse(**item)`. -/
def decodeGetWifiListItem (j : Json) : Except PyError GetWifiListItemResponse :=
  match j with
  | .obj kvs =>
    if kwargsExact wifiListItemFieldNames kvs then
      .ok { sid := jlookup kvs "sid", srh := jlookup kvs "srh",
            channel := jlookup kvs "channel" }
    else .error .typeError
  | _ => .error .typeError

/-- Get Wifi list response (dataclass GetWifiListResponse); its `wif`
field holds the element-wise decoded item records. -/
structure GetWifiListResponse where
  wif : List GetWifiListItemResponse
  num : Json

/-- Field names of GetWifiListResponse, in declaration order. -/
def wifiListFieldNames : List String := ["wif", "num"]

/-- Decoding step of get_wifi_list: first
`response["wif"] = [GetWifiListItemResponse(**item) for item in response["wif"]]`,
then `GetWifiListResponse(**response)`. -/
def decodeGetWifiList (j : Json) : Except PyError GetWifiListResponse :=
  match j with
  | .obj kvs =>
    match kvs.lookup "wif" with
    | none => .error .keyError
    | some wifJson =>
      match pyIter wifJson with
      | .error e => .error e
      | .ok items =>
        match mapDecode decodeGetWifiListItem items with
        | .error e => .error e
        | .ok wif =>
          if kwargsExact wifiListFieldNames kvs then
            .ok { wif := wif, num := jlookup kvs "num" }
          else .error .typeError
  | _ => .error .typeError

/-- Battery mode: the closed enumeration of operator intents
(enum BatteryMode, members OwnNeeds=1, Backup=2, Advanced=3, OffGrid=4,
Charging=5). -/
inductive BatteryMode where
  | OwnNeeds : BatteryMode
  | Backup : BatteryMode
  | Advanced : BatteryMode
  | OffGrid : BatteryMode
  | Charging : BatteryMode
deriving DecidableEq

/-- Argument actually passed where the Python signature annotates
`mode: BatteryMode`: annotations are not enforced at runtime, so the value
is either a member of the enumeration or any other Python value (an enum
member compares unequal to everything outside the enumeration, so any such
value reaches the final else branch of the translation). -/
inductive BatteryModeInput where
  | known : BatteryMode → BatteryModeInput
  | other : Json → BatteryModeInput

/-- Set battery config value request (dataclass SetBatteryConfigValueRequest);
fields hold whatever values the current battery info record supplied. -/
structure SetBatteryConfigValueRequest where
  type : Json
  mod_r : Json
  sn : Json
  discharge_max : Json
  charge_max : Json
  muf : Json
  mod : Json
  num : Json

/-- Set battery config request (dataclass SetBatteryConfigRequest) with its
dataclass defaults device=4 and action="setbattery". -/
structure SetBatteryConfigRequest where
  value : SetBatteryConfigValueRequest
  device : Int := 4
  action : String := "setbattery"

/-- Mode translation SolplanetApi._fill_set_battery_config_value_request:
the if/elif chain over the five enum members assigning mod_r and type,
with the final else branch raising UnknownBatteryMode. -/
def fillSetBatteryConfigValueRequest (battery_value : SetBatteryConfigValueRequest)
    (mode : BatteryModeInput) : Except PyError SetBatteryConfigValueRequest :=
  match mode with
  | .known .OwnNeeds => .ok { battery_value with mod_r := .num 2, type := .num 1 }
  | .known .Backup => .ok { battery_value with mod_r := .num 3, type := .num 1 }
  | .known .Advanced => .ok { battery_value with mod_r := .num 4, type := .num 1 }
  | .known .OffGrid => .ok { battery_value with mod_r := .num 1, type := .num 2 }
  | .known .Charging => .ok { battery_value with mod_r := .num 1, type := .num 4 }
  | .other _ => .error .unknownBatteryMode

/-- Request-construction part of SolplanetApi.change_battery_mode: seed the
config-value payload from the current battery info record (sn from isn),
apply the mode translation in place, then wrap the result in the
SetBatteryConfigRequest envelope with its dataclass defaults. -/
def changeBatteryModeCore (current : GetBatteryInfoResponse)
    (mode : BatteryModeInput) : Except PyError SetBatteryConfigRequest :=
  let value : SetBatteryConfigValueRequest :=
    { type := current.type, mod_r := current.mod_r, muf := current.muf,
      mod := current.mod, num := current.num, sn := current.isn,
      charge_max := current.charge_max, discharge_max := current.discharge_max }
  match fillSetBatteryConfigValueRequest value mode with
  | .error e => .error e
  | .ok value => .ok { value := value }

/-- Solplanet http client (class SolplanetClient): holds the host and port. -/
structure SolplanetClient where
  host : String
  port : Nat

/-- Constructor of SolplanetClient: stores the host and fixes port 8484. -/
def SolplanetClient.new (host : String) : SolplanetClient :=
  { host := host, port := 8484 }

/-- SolplanetClient.get_url: URL for the specified endpoint. -/
def SolplanetClient.get_url (c : SolplanetClient) (endpoint : String) : String :=
  "http://" ++ c.host ++ ":" ++ toString c.port ++ "/" ++ endpoint

/-- Network oracle standing for the HTTP stack: maps a request URL to the
JSON body of the response, or to a network/JSON-parse error. -/
def Network : Type := String → Except PyError Json

/-- Observable effects of an API call: endpoints requested over the network
via SolplanetClient.get, and invocations of set_battery_config. -/
structure CallLog where
  gets : List String
  setConfigCalls : List SetBatteryConfigRequest

/-- SolplanetClient.get: one GET round trip for the given endpoint, at the
URL built by get_url; the endpoint is recorded as a requested one. -/
def SolplanetClient.get (c : SolplanetClient) (net : Network)
    (endpoint : String) : Except PyError Json × List String :=
  (net (c.get_url endpoint), [endpoint])

/-- SolplanetApi.get_meter_data: GET getdevdata.cgi?device=3 and decode. -/
def SolplanetApi.get_meter_data (c : SolplanetClient) (net : Network) :
    Except PyError GetMeterDataResponse × CallLog :=
  let resp := c.get net "getdevdata.cgi?device=3"
  (match resp.1 with
   | .error e => .error e
   | .ok j => decodeGetMeterData j,
   { gets := resp.2, setConfigCalls := [] })

/-- SolplanetApi.get_inverter_data: GET getdevdata.cgi?device=2&sn=<sn>
and decode. -/
def SolplanetApi.get_inverter_data (c : SolplanetClient) (net : Network)
    (sn : String) : Except PyError GetInverterDataResponse × CallLog :=
  let resp := c.get net ("getdevdata.cgi?device=2&sn=" ++ sn)
  (match resp.1 with
   | .error e => .error e
   | .ok j => decodeGetInverterData j,
   { gets := resp.2, setConfigCalls := [] })

/-- SolplanetApi.get_inverter_info: GET getdev.cgi?device=2 and decode,
element-wise for the nested inv list. -/
def SolplanetApi.get_inverter_info (c : SolplanetClient) (net : Network) :
    Except PyError GetInverterInfoResponse × CallLog :=
  let resp := c.get net "getdev.cgi?device=2"
  (match resp.1 with
   | .error e => .error e
   | .ok j => decodeGetInverterInfo j,
   { gets := resp.2, setConfigCalls := [] })

/-- SolplanetApi.get_battery_info: GET getdev.cgi?device=4 and decode,
including the embedded battery sub-record. -/
def SolplanetApi.get_battery_info (c : SolplanetClient) (net : Network) :
    Except PyError GetBatteryInfoResponse × CallLog :=
  let resp := c.get net "getdev.cgi?device=4"
  (match resp.1 with
   | .error e => .error e
   | .ok j => decodeGetBatteryInfo j,
   { gets := resp.2, setConfigCalls := [] })

/-- SolplanetApi.get_wifi_list: GET wlanget.cgi?info=4 and decode,
element-wise for the nested wif list. -/
def SolplanetApi.get_wifi_list (c : SolplanetClient) (net : Network) :
    Except PyError GetWifiListResponse × CallLog :=
  let resp := c.get net "wlanget.cgi?info=4"
  (match resp.1 with
   | .error e => .error e
   | .ok j => decodeGetWifiList j,
   { gets := resp.2, setConfigCalls := [] })

/-- SolplanetApi.set_battery_config: its body only serializes the request
and writes it to the debug log, then returns None; it touches the network
on no path, so the call log records the invocation and no GET. -/
def SolplanetApi.set_battery_config (request : SetBatteryConfigRequest) :
    Except PyError Unit × CallLog :=
  (.ok (), { gets := [], setConfigCalls := [request] })

/-- SolplanetApi.change_battery_mode: read current battery info, build the
config-value payload, translate the mode, wrap in the envelope, and hand
the request to set_battery_config; any error on the way propagates and
stops the sequence. -/
def SolplanetApi.change_battery_mode (c : SolplanetClient) (net : Network)
    (mode : BatteryModeInput) : Except PyError Unit × CallLog :=
  let read := SolplanetApi.get_battery_info c net
  match read.1 with
  | .error e => (.error e, read.2)
  | .ok current =>
    match changeBatteryModeCore current mode with
    | .error e => (.error e, read.2)
    | .ok request =>
      let write := SolplanetApi.set_battery_config request
      (write.1,
       { gets := read.2.gets ++ write.2.gets,
         setConfigCalls := read.2.setConfigCalls ++ write.2.setConfigCalls })

/-- Concrete battery hardware sub-record JSON, with exactly the 19 item
field names as keys. -/
def batteryItemJson : Json :=
  .obj [("bid", .num 1), ("devtype", .str "LFP"), ("manufactoty", .str "ACME"),
        ("partno", .str "P-1"), ("model1sn", .str "M1"), ("model2sn", .str "M2"),
        ("model3sn", .str "M3"), ("model4sn", .str "M4"), ("model5sn", .str "M5"),
        ("model6sn", .str "M6"), ("model7sn", .str "M7"), ("model8sn", .str "M8"),
        ("modeltotal", .num 1), ("monomertotoal", .num 16),
        ("monomerinmodel", .num 16), ("ratedvoltage", .num 48),
        ("capacity", .num 100), ("hardwarever", .str "1.0"),
        ("softwarever", .str "2.0")]

/-- Concrete battery info JSON response, with exactly the 12 outer field
names as keys and the config values used by the end-to-end example
(isn="SN123", type=1, mod_r=2, muf=7, mod=0, num=1, charge_max=90,
discharge_max=20). -/
def batteryInfoJson : Json :=
  .obj [("isn", .str "SN123"), ("stu_r", .num 0), ("type", .num 1),
        ("mod_r", .num 2), ("muf", .num 7), ("mod", .num 0), ("num", .num 1),
        ("fir_r", .num 0), ("charging", .num 0), ("charge_max", .num 90),
        ("discharge_max", .num 20), ("battery", batteryItemJson)]

/-- Network oracle of a healthy device that answers every request with the
concrete battery info response body. -/
def okNet : Network := fun _ => .ok batteryInfoJson

/-- Network oracle of an unreachable device: every request fails with a
network error. -/
def failNet : Network := fun _ => .error .netError

/-- Payload value produced for mode Backup from the concrete battery info
record: type and mod_r from the translation table, all other fields carried
through from the current record. -/
def backupPayloadValue : SetBatteryConfigValueRequest :=
  { type := .num 1, mod_r := .num 3, sn := .str "SN123",
    discharge_max := .num 20, charge_max := .num 90, muf := .num 7,
    mod := .num 0, num := .num 1 }

/-- C2: for every one of the five defined BatteryMode values, the mode
translation sets exactly the (mod_r, type) pair of the fixed table:
OwnNeeds -> (2, 1), Backup -> (3, 1), Advanced -> (4, 1), OffGrid -> (1, 2),
Charging -> (1, 4), whatever config-value payload it starts from. -/
theorem solplanet_C2_mode_translation_table
    (v : SetBatteryConfigValueRequest) :
    (fillSetBatteryConfigValueRequest v (.known .OwnNeeds)).map
        (fun r => (r.mod_r, r.type)) = .ok (.num 2, .num 1)
    ∧ (fillSetBatteryConfigValueRequest v (.known .Backup)).map
        (fun r => (r.mod_r, r.type)) = .ok (.num 3, .num 1)
    ∧ (fillSetBatteryConfigValueRequest v (.known .Advanced)).map
        (fun r => (r.mod_r, r.type)) = .ok (.num 4, .num 1)
    ∧ (fillSetBatteryConfigValueRequest v (.known .OffGrid)).map
        (fun r => (r.mod_r, r.type)) = .ok (.num 1, .num 2)
    ∧ (fillSetBatteryConfigValueRequest v (.known .Charging)).map
        (fun r => (r.mod_r, r.type)) = .ok (.num 1, .num 4) :=
  ⟨rfl, rfl, rfl, rfl, rfl⟩

/-- C5: for every current battery info record and every defined target mode,
the write payload carries through unchanged every field not touched by the
mode translation (sn from isn, muf, mod, num, charge_max, discharge_max) and
wraps it with device=4 and action="setbattery"; and on the concrete record
(type=1, mod_r=2, muf=7, mod=0, num=1, isn="SN123", charge_max=90,
discharge_max=20) with mode Backup the payload is exactly the expected one. -/
theorem solplanet_C5_untouched_fields_carried_through :
    (∀ (current : GetBatteryInfoResponse) (m : BatteryMode),
      (changeBatteryModeCore current (.known m)).map
          (fun r => (r.value.sn, r.value.muf, r.value.mod, r.value.num,
                     r.value.charge_max, r.value.discharge_max,
                     r.device, r.action))
        = .ok (current.isn, current.muf, current.mod, current.num,
               current.charge_max, current.discharge_max, 4, "setbattery"))
    ∧ (∀ (stu fir chg : Json) (bat : GetBatteryInfoItemResponse),
      changeBatteryModeCore
          { isn := .str "SN123", stu_r := stu, type := .num 1,
            mod_r := .num 2, muf := .num 7, mod := .num 0, num := .num 1,
            fir_r := fir, charging := chg, charge_max := .num 90,
            discharge_max := .num 20, battery := bat }
          (.known .Backup)
        = .ok { value := backupPayloadValue, device := 4,
                action := "setbattery" }) := by
  constructor
  · intro current m
    cases m <;> rfl
  · intro stu fir chg bat
    rfl

/-- C9: for every mode that is a member of the BatteryMode enumeration, the
mode translation never raises UnknownBatteryMode: it always returns a
payload, so the fallback error branch is unreachable under that
precondition. -/
theorem solplanet_C9_enum_translation_total
    (v : SetBatteryConfigValueRequest) (m : BatteryMode) :
    ∃ r, fillSetBatteryConfigValueRequest v (.known m) = .ok r := by
  cases m <;> exact ⟨_, rfl⟩

/-- C10: for every defined target mode, the constructed write request does
not depend on the type and mod_r the device currently reports: two current
battery info records that differ only in those two fields produce identical
requests. -/
theorem solplanet_C10_mode_fields_independent_of_current
    (isn stu t1 r1 t2 r2 muf mo nu fir chg cm dm : Json)
    (bat : GetBatteryInfoItemResponse) (m : BatteryMode) :
    changeBatteryModeCore
        { isn := isn, stu_r := stu, type := t1, mod_r := r1, muf := muf,
          mod := mo, num := nu, fir_r := fir, charging := chg,
          charge_max := cm, discharge_max := dm, battery := bat }
        (.known m)
      = changeBatteryModeCore
        { isn := isn, stu_r := stu, type := t2, mod_r := r2, muf := muf,
          mod := mo, num := nu, fir_r := fir, charging := chg,
          charge_max := cm, discharge_max := dm, battery := bat }
        (.known m) := by
  cases m <;> rfl

theorem str_append_assoc (a b c : String) : (a ++ b) ++ c = a ++ (b ++ c) :=
  String.ext (by simp [String.data_append])

/-- C1: on a healthy device, change_battery_mode with mode Backup builds the
payload, wraps it with device=4 and action="setbattery" and hands it to
set_battery_config, but the complete operation requests only the battery
info read over the network: set_battery_config performs no network call,
it only logs the serialized request. -/
theorem solplanet_C1_write_request_not_sent :
    SolplanetApi.change_battery_mode (SolplanetClient.new "host") okNet
        (.known .Backup)
      = (.ok (),
         { gets := ["getdev.cgi?device=4"],
           setConfigCalls := [{ value := backupPayloadValue, device := 4,
                                action := "setbattery" }] }) := rfl

/-- C3 counterexample: with a healthy device and an input outside the
BatteryMode enumeration, change_battery_mode does fail with
UnknownBatteryMode, but only after issuing the battery info read: the
operation's network request list is nonempty, refuting the claim that zero
network calls are issued and that the error precedes any network I/O. -/
theorem solplanet_C3_counterexample :
    SolplanetApi.change_battery_mode (SolplanetClient.new "host") okNet
        (.other (.num 6))
      = (.error .unknownBatteryMode,
         { gets := ["getdev.cgi?device=4"], setConfigCalls := [] })
    ∧ (SolplanetApi.change_battery_mode (SolplanetClient.new "host") okNet
        (.other (.num 6))).2.gets ≠ [] :=
  ⟨rfl, by decide⟩

/-- C3 amended: for every input value outside the BatteryMode enumeration,
whenever the battery info read succeeds, change_battery_mode fails with the
UnknownBatteryMode domain error raised after the read round trip and before
the write step: exactly one network call (the read) is issued and
set_battery_config is never invoked. -/
theorem solplanet_C3_unknown_mode_fails_after_read
    (c : SolplanetClient) (net : Network) (v : Json)
    (current : GetBatteryInfoResponse)
    (h : (SolplanetApi.get_battery_info c net).1 = .ok current) :
    SolplanetApi.change_battery_mode c net (.other v)
      = (.error .unknownBatteryMode,
         { gets := ["getdev.cgi?device=4"], setConfigCalls := [] }) := by
  simp only [SolplanetApi.change_battery_mode, h]
  rfl

theorem solplanet_C3_unknown_mode_witness :
    SolplanetApi.change_battery_mode (SolplanetClient.new "host") okNet
        (.other (.str "bogus"))
      = (.error .unknownBatteryMode,
         { gets := ["getdev.cgi?device=4"], setConfigCalls := [] }) :=
  solplanet_C3_unknown_mode_fails_after_read _ _ _ _ rfl

/-- C7: get_inverter_data with serial SN42 requests exactly the endpoint
getdevdata.cgi?device=2&sn=SN42 and nothing else, get_battery_info requests
exactly getdev.cgi?device=4 and nothing else, and for every host and
endpoint the URL built by a freshly constructed client has the form
http://<host>:8484/<endpoint> with the fixed port 8484. -/
theorem solplanet_C7_endpoint_construction :
    (∀ (c : SolplanetClient) (net : Network),
        (SolplanetApi.get_inverter_data c net "SN42").2.gets
          = ["getdevdata.cgi?device=2&sn=SN42"])
    ∧ (∀ (c : SolplanetClient) (net : Network),
        (SolplanetApi.get_battery_info c net).2.gets = ["getdev.cgi?device=4"])
    ∧ (∀ (host endpoint : String),
        (SolplanetClient.new host).get_url endpoint
          = "http://" ++ host ++ ":8484/" ++ endpoint) := by
  refine ⟨fun c net => rfl, fun c net => rfl, fun host endpoint => ?_⟩
  show "http://" ++ host ++ ":" ++ toString (8484 : Nat) ++ "/" ++ endpoint
      = "http://" ++ host ++ ":8484/" ++ endpoint
  rw [show toString (8484 : Nat) = "8484" from rfl,
      str_append_assoc ("http://" ++ host) ":" "8484",
      show (":" : String) ++ "8484" = ":8484" from rfl,
      str_append_assoc ("http://" ++ host) ":8484" "/",
      show (":8484" : String) ++ "/" = ":8484/" from rfl]

/-- C8: whenever the first (read) call of change_battery_mode fails, the
error propagates as the result of the whole operation, the only network
request issued is the read, and set_battery_config is never invoked. -/
theorem solplanet_C8_read_failure_stops_write
    (c : SolplanetClient) (net : Network) (mode : BatteryModeInput)
    (e : PyError)
    (h : net (c.get_url "getdev.cgi?device=4") = .error e) :
    SolplanetApi.change_battery_mode c net mode
      = (.error e, { gets := ["getdev.cgi?device=4"], setConfigCalls := [] }) := by
  simp only [SolplanetApi.change_battery_mode, SolplanetApi.get_battery_info,
    SolplanetClient.get, h]

theorem solplanet_C8_read_failure_witness :
    SolplanetApi.change_battery_mode (SolplanetClient.new "host") failNet
        (.known .Backup)
      = (.error .netError,
         { gets := ["getdev.cgi?device=4"], setConfigCalls := [] }) :=
  solplanet_C8_read_failure_stops_write _ _ _ _ rfl

theorem mapDecode_ok_length {α : Type} (f : Json → Except PyError α) :
    ∀ (xs : List Json) (ys : List α),
      mapDecode f xs = .ok ys → ys.length = xs.length := by
  intro xs
  induction xs with
  | nil =>
    intro ys h
    simp only [mapDecode, Except.ok.injEq] at h
    subst h
    rfl
  | cons x xs ih =>
    intro ys h
    simp only [mapDecode] at h
    cases hfx : f x with
    | error e => rw [hfx] at h; cases h
    | ok y =>
      rw [hfx] at h
      cases hrec : mapDecode f xs with
      | error e => rw [hrec] at h; cases h
      | ok tl =>
        rw [hrec] at h
        simp only [Except.ok.injEq] at h
        subst h
        simp [ih tl hrec]

/-- C6: for every well-formed nested list (inverter list under inv, WiFi
network list under wif) of n items each of which decodes, the response
decodes to a record whose nested collection holds exactly the n element-wise
decoded item records in the original order. -/
theorem solplanet_C6_nested_lists_decoded_elementwise :
    (∀ (xs : List Json) (numv : Json)
        (items : List GetInverterInfoItemResponse),
        mapDecode decodeGetInverterInfoItem xs = .ok items →
          decodeGetInverterInfo (.obj [("inv", .arr xs), ("num", numv)])
              = .ok { inv := items, num := numv }
            ∧ items.length = xs.length)
    ∧ (∀ (xs : List Json) (numv : Json)
        (items : List GetWifiListItemResponse),
        mapDecode decodeGetWifiListItem xs = .ok items →
          decodeGetWifiList (.obj [("wif", .arr xs), ("num", numv)])
              = .ok { wif := items, num := numv }
            ∧ items.length = xs.length) := by
  constructor
  · intro xs numv items h
    refine ⟨?_, mapDecode_ok_length _ _ _ h⟩
    have step : decodeGetInverterInfo (.obj [("inv", .arr xs), ("num", numv)])
        = match mapDecode decodeGetInverterInfoItem xs with
          | .error e => .error e
          | .ok inv => .ok { inv := inv, num := numv } := rfl
    rw [step, h]
  · intro xs numv items h
    refine ⟨?_, mapDecode_ok_length _ _ _ h⟩
    have step : decodeGetWifiList (.obj [("wif", .arr xs), ("num", numv)])
        = match mapDecode decodeGetWifiListItem xs with
          | .error e => .error e
          | .ok wif => .ok { wif := wif, num := numv } := rfl
    rw [step, h]

/-- Concrete inverter info list item JSON with exactly the 14 item field
names as keys. -/
def invItemJsonA : Json :=
  .obj [("isn", .str "I1"), ("add", .num 1), ("safety", .num 0),
        ("rate", .num 5000), ("msw", .str "m"), ("ssw", .str "s"),
        ("tsw", .str "t"), ("pac", .num 100), ("etd", .num 1),
        ("eto", .num 2), ("err", .num 0), ("cmv", .str "c"),
        ("mty", .num 1), ("model", .str "X1")]

/-- Record obtained by decoding invItemJsonA. -/
def invItemRecA : GetInverterInfoItemResponse :=
  { isn := .str "I1", add := .num 1, safety := .num 0, rate := .num 5000,
    msw := .str "m", ssw := .str "s", tsw := .str "t", pac := .num 100,
    etd := .num 1, eto := .num 2, err := .num 0, cmv := .str "c",
    mty := .num 1, model := .str "X1" }

theorem solplanet_C6_nested_lists_witness :
    decodeGetInverterInfo
        (.obj [("inv", .arr [invItemJsonA, invItemJsonA, invItemJsonA]),
               ("num", .num 3)])
        = .ok { inv := [invItemRecA, invItemRecA, invItemRecA], num := .num 3 }
      ∧ [invItemRecA, invItemRecA, invItemRecA].length
          = [invItemJsonA, invItemJsonA, invItemJsonA].length :=
  solplanet_C6_nested_lists_decoded_elementwise.1 _ _ _ rfl

/-- Key-value pairs of a meter response carrying all nine required keys but
a string where the integer flg is expected. -/
def wrongTypedMeterKvs : List (String × Json) :=
  [("flg", .str "not-an-int"), ("tim", .str "20240101000000"),
   ("pac", .num 1), ("itd", .num 2), ("otd", .num 3), ("iet", .num 4),
   ("oet", .num 5), ("mod", .num 6), ("enb", .num 7)]

/-- C4 counterexample: a meter response whose flg field has the wrong type
(a string where the documented shape has an integer) decodes successfully
into a record holding the wrong-typed value, refuting the claim that a
wrong-typed field makes decoding fail the call. -/
theorem solplanet_C4_counterexample :
    decodeGetMeterData (.obj wrongTypedMeterKvs)
      = .ok { flg := .str "not-an-int", tim := .str "20240101000000",
              pac := .num 1, itd := .num 2, otd := .num 3, iet := .num 4,
              oet := .num 5, mod := .num 6, enb := .num 7 } := rfl

/-- C4 amended: for every query method, decoding is strict about the key
set but not about plain field values: a returned mapping decodes
successfully only when its keys are exactly the record's field names, so a
missing required field or an extra field fails the whole call with an error
and no partial record is returned; on success every plain field stores the
returned JSON value as-is, with no type check and no coercion. Only the
specially pre-processed nested fields are shape-checked: a missing
battery/inv/wif key fails with a key error, a battery value that fails the
sub-record decode, a non-iterable inv/wif value, or a failing list item all
fail the call with that error. -/
theorem solplanet_C4_amended_strict_keys_no_type_check :
    (∀ kvs : List (String × Json),
        kwargsExact meterFieldNames kvs = true →
          decodeGetMeterData (.obj kvs)
            = .ok { flg := jlookup kvs "flg", tim := jlookup kvs "tim",
                    pac := jlookup kvs "pac", itd := jlookup kvs "itd",
                    otd := jlookup kvs "otd", iet := jlookup kvs "iet",
                    oet := jlookup kvs "oet", mod := jlookup kvs "mod",
                    enb := jlookup kvs "enb" })
    ∧ (∀ kvs : List (String × Json),
        kwargsExact meterFieldNames kvs = false →
          decodeGetMeterData (.obj kvs) = .error .typeError)
    ∧ (∀ kvs : List (String × Json),
        kwargsExact inverterDataFieldNames kvs = true →
          decodeGetInverterData (.obj kvs)
            = .ok { flg := jlookup kvs "flg", tim := jlookup kvs "tim",
                    tmp := jlookup kvs "tmp", fac := jlookup kvs "fac",
                    pac := jlookup kvs "pac", sac := jlookup kvs "sac",
                    qac := jlookup kvs "qac", eto := jlookup kvs "eto",
                    etd := jlookup kvs "etd", hto := jlookup kvs "hto",
                    pf := jlookup kvs "pf", wan := jlookup kvs "wan",
                    err := jlookup kvs "err", vac := jlookup kvs "vac",
                    iac := jlookup kvs "iac", vpv := jlookup kvs "vpv",
                    ipv := jlookup kvs "ipv", str := jlookup kvs "str" })
    ∧ (∀ kvs : List (String × Json),
        kwargsExact inverterDataFieldNames kvs = false →
          decodeGetInverterData (.obj kvs) = .error .typeError)
    ∧ (∀ kvs : List (String × Json),
        kvs.lookup "battery" = none →
          decodeGetBatteryInfo (.obj kvs) = .error .keyError)
    ∧ (∀ (kvs : List (String × Json)) (bj : Json)
        (bat : GetBatteryInfoItemResponse),
        kvs.lookup "battery" = some bj →
          decodeGetBatteryInfoItem bj = .ok bat →
            kwargsExact batteryInfoFieldNames kvs = true →
              decodeGetBatteryInfo (.obj kvs)
                = .ok { isn := jlookup kvs "isn", stu_r := jlookup kvs "stu_r",
                        type := jlookup kvs "type",
                        mod_r := jlookup kvs "mod_r",
                        muf := jlookup kvs "muf", mod := jlookup kvs "mod",
                        num := jlookup kvs "num",
                        fir_r := jlookup kvs "fir_r",
                        charging := jlookup kvs "charging",
                        charge_max := jlookup kvs "charge_max",
                        discharge_max := jlookup kvs "discharge_max",
                        battery := bat })
    ∧ (∀ (kvs : List (String × Json)) (bj : Json)
        (bat : GetBatteryInfoItemResponse),
        kvs.lookup "battery" = some bj →
          decodeGetBatteryInfoItem bj = .ok bat →
            kwargsExact batteryInfoFieldNames kvs = false →
              decodeGetBatteryInfo (.obj kvs) = .error .typeError)
    ∧ (∀ (kvs : List (String × Json)) (bj : Json) (e : PyError),
        kvs.lookup "battery" = some bj →
          decodeGetBatteryInfoItem bj = .error e →
            decodeGetBatteryInfo (.obj kvs) = .error e)
    ∧ (∀ kvs : List (String × Json),
        kvs.lookup "inv" = none →
          decodeGetInverterInfo (.obj kvs) = .error .keyError)
    ∧ (∀ (kvs : List (String × Json)) (ij : Json) (items : List Json)
        (inv : List GetInverterInfoItemResponse),
        kvs.lookup "inv" = some ij →
          pyIter ij = .ok items →
            mapDecode decodeGetInverterInfoItem items = .ok inv →
              kwargsExact inverterInfoFieldNames kvs = true →
                decodeGetInverterInfo (.obj kvs)
                  = .ok { inv := inv, num := jlookup kvs "num" })
    ∧ (∀ (kvs : List (String × Json)) (ij : Json) (items : List Json)
        (inv : List GetInverterInfoItemResponse),
        kvs.lookup "inv" = some ij →
          pyIter ij = .ok items →
            mapDecode decodeGetInverterInfoItem items = .ok inv →
              kwargsExact inverterInfoFieldNames kvs = false →
                decodeGetInverterInfo (.obj kvs) = .error .typeError)
    ∧ (∀ (kvs : List (String × Json)) (ij : Json) (e : PyError),
        kvs.lookup "inv" = some ij →
          pyIter ij = .error e →
            decodeGetInverterInfo (.obj kvs) = .error e)
    ∧ (∀ (kvs : List (String × Json)) (ij : Json) (items : List Json)
        (e : PyError),
        kvs.lookup "inv" = some ij →
          pyIter ij = .ok items →
            mapDecode decodeGetInverterInfoItem items = .error e →
              decodeGetInverterInfo (.obj kvs) = .error e)
    ∧ (∀ kvs : List (String × Json),
        kvs.lookup "wif" = none →
          decodeGetWifiList (.obj kvs) = .error .keyError)
    ∧ (∀ (kvs : List (String × Json)) (wj : Json) (items : List Json)
        (wif : List GetWifiListItemResponse),
        kvs.lookup "wif" = some wj →
          pyIter wj = .ok items →
            mapDecode decodeGetWifiListItem items = .ok wif →
              kwargsExact wifiListFieldNames kvs = true →
                decodeGetWifiList (.obj kvs)
                  = .ok { wif := wif, num := jlookup kvs "num" })
    ∧ (∀ (kvs : List (String × Json)) (wj : Json) (items : List Json)
        (wif : List GetWifiListItemResponse),
        kvs.lookup "wif" = some wj →
          pyIter wj = .ok items →
            mapDecode decodeGetWifiListItem items = .ok wif →
              kwargsExact wifiListFieldNames kvs = false →
                decodeGetWifiList (.obj kvs) = .error .typeError)
    ∧ (∀ (kvs : List (String × Json)) (wj : Json) (e : PyError),
        kvs.lookup "wif" = some wj →
          pyIter wj = .error e →
            decodeGetWifiList (.obj kvs) = .error e)
    ∧ (∀ (kvs : List (String × Json)) (wj : Json) (items : List Json)
        (e : PyError),
        kvs.lookup "wif" = some wj →
          pyIter wj = .ok items →
            mapDecode decodeGetWifiListItem items = .error e →
              decodeGetWifiList (.obj kvs) = .error e) := by
  refine ⟨?_, ?_, ?_, ?_, ?_, ?_, ?_, ?_, ?_, ?_, ?_, ?_, ?_, ?_, ?_, ?_,
    ?_, ?_⟩
  · intro kvs h
    simp [decodeGetMeterData, h]
  · intro kvs h
    simp [decodeGetMeterData, h]
  · intro kvs h
    simp [decodeGetInverterData, h]
  · intro kvs h
    simp [decodeGetInverterData, h]
  · intro kvs h
    simp [decodeGetBatteryInfo, h]
  · intro kvs bj bat h1 h2 h3
    simp [decodeGetBatteryInfo, h1, h2, h3]
  · intro kvs bj bat h1 h2 h3
    simp [decodeGetBatteryInfo, h1, h2, h3]
  · intro kvs bj e h1 h2
    simp [decodeGetBatteryInfo, h1, h2]
  · intro kvs h
    simp [decodeGetInverterInfo, h]
  · intro kvs ij items inv h1 h2 h3 h4
    simp [decodeGetInverterInfo, h1, h2, h3, h4]
  · intro kvs ij items inv h1 h2 h3 h4
    simp [decodeGetInverterInfo, h1, h2, h3, h4]
  · intro kvs ij e h1 h2
    simp [decodeGetInverterInfo, h1, h2]
  · intro kvs ij items e h1 h2 h3
    simp [decodeGetInverterInfo, h1, h2, h3]
  · intro kvs h
    simp [decodeGetWifiList, h]
  · intro kvs wj items wif h1 h2 h3 h4
    simp [decodeGetWifiList, h1, h2, h3, h4]
  · intro kvs wj items wif h1 h2 h3 h4
    simp [decodeGetWifiList, h1, h2, h3, h4]
  · intro kvs wj e h1 h2
    simp [decodeGetWifiList, h1, h2]
  · intro kvs wj items e h1 h2 h3
    simp [decodeGetWifiList, h1, h2, h3]

/-- Key-value pairs of a meter response missing the required tim key. -/
def missingTimMeterKvs : List (String × Json) :=
  [("flg", .num 0), ("pac", .num 1), ("itd", .num 2), ("otd", .num 3),
   ("iet", .num 4), ("oet", .num 5), ("mod", .num 6), ("enb", .num 7)]

theorem solplanet_C4_amended_witness :
    decodeGetMeterData (.obj wrongTypedMeterKvs)
        = .ok { flg := .str "not-an-int", tim := .str "20240101000000",
                pac := .num 1, itd := .num 2, otd := .num 3, iet := .num 4,
                oet := .num 5, mod := .num 6, enb := .num 7 }
      ∧ decodeGetMeterData (.obj missingTimMeterKvs) = .error .typeError
      ∧ decodeGetBatteryInfo (.obj []) = .error .keyError
      ∧ decodeGetBatteryInfo (.obj [("battery", .num 0)]) = .error .typeError
      ∧ decodeGetInverterInfo (.obj [("inv", .num 0), ("num", .num 0)])
          = .error .typeError
      ∧ decodeGetWifiList (.obj [("wif", .bool true), ("num", .num 0)])
          = .error .typeError := by
  obtain ⟨hA, hB, hC, hD, hE, hF, hG, hH, hI, hJ, hK, hL, hM, hN, hO, hP,
    hQ, hR⟩ := solplanet_C4_amended_strict_keys_no_type_check
  exact ⟨hA wrongTypedMeterKvs (by decide),
         hB missingTimMeterKvs (by decide),
         hE [] rfl,
         hH [("battery", .num 0)] (.num 0) .typeError rfl rfl,
         hL [("inv", .num 0), ("num", .num 0)] (.num 0) .typeError rfl rfl,
         hQ [("wif", .bool true), ("num", .num 0)] (.bool true) .typeError
           rfl rfl⟩
